import Mathlib

/-!
Shallow embedding of the frame-to-relational bridge in `pkg/expr/sql/db.go`
(the later revision, lines 218-441 of the provided file; the earlier revision,
lines 1-217, agrees on every behavior modelled here: it names tables the same
way, uses the same `convertDataType` and `convertToDataFrame`, and keeps the
same long-lived `inMemoryDb` field).

The embedded relational engine (`github.com/dolthub/go-mysql-server`) and the
frame SDK (`github.com/grafana/grafana-plugin-sdk-go/data`) are external
dependencies; the parts of their behavior a claim depends on are modelled
explicitly, from the spec, in clearly marked definitions.
-/

namespace GrafanaSql

/-- The tag type `data.FieldType` of the plugin SDK: the semantic type tag of a frame field.
The supported enumeration of the spec is Int8..Int64, Uint8..Uint64, Float32,
Float64, String, Bool, Time; `json` and `enum` stand for tags outside that
enumeration (`data.FieldTypeJSON`, `data.FieldTypeEnum`, ...). -/
inductive FieldType where
  | int8 | int16 | int32 | int64
  | uint8 | uint16 | uint32 | uint64
  | float32 | float64
  | string | bool | time
  | json | enum
deriving DecidableEq, Repr

/-- Whether a tag is in the spec's supported enumeration. -/
def FieldType.isSupported : FieldType → Bool
  | .json | .enum => false
  | _ => true

/-- A Go runtime value (`interface{}`) as it appears in relational rows.
Float64 payloads are carried as uninterpreted bit patterns (the bridge only
moves float values, it never computes with them); Time payloads are carried as
uninterpreted instants. `gNull` is a nil interface value; `gOther` stands for
any other runtime kind. -/
inductive GoValue where
  | gInt8 (i : Int)
  | gInt64 (i : Int)
  | gUint64 (n : Nat)
  | gFloat (bits : Nat)
  | gString (s : String)
  | gBool (b : Bool)
  | gTime (t : Int)
  | gNull
  | gOther (desc : String)
deriving DecidableEq, Repr

/-- One named, homogeneously-typed column of a frame (`data.Field`): the
element type of its backing vector plus its values in order. -/
structure Field where
  name : String
  ftype : FieldType
  values : List GoValue
deriving DecidableEq, Repr

/-- The type `data.Frame`: a named, ordered sequence of fields. -/
structure Frame where
  name : String
  fields : List Field
deriving DecidableEq, Repr

/-- The method `data.Frame.Rows()`: the length of the first field (0 if no fields). -/
def Frame.rows (f : Frame) : Nat :=
  match f.fields with
  | [] => 0
  | fld :: _ => fld.values.length

/-- The method `data.Field.At(i)`: the i-th value of a field. -/
def Field.at (fld : Field) (i : Nat) : GoValue :=
  fld.values.getD i .gNull

/-- The SDK's `data.Field.Append` type-asserts the appended value against the
vector's element type; a mismatched Go type panics. This predicate mirrors
that assertion (the bridge only ever appends `int64`, `float64`, `string` and
`bool` runtime values). -/
def elemAccepts : FieldType → GoValue → Bool
  | .int64, .gInt64 _ => true
  | .string, .gString _ => true
  | .float64, .gFloat _ => true
  | .bool, .gBool _ => true
  | .time, .gTime _ => true
  | _, _ => false

/-- The go-mysql-server column types as seen through the type switch of
`convertToDataFrame`: `int64T`, `uint64T`, `float64T` and `booleanT` all
implement `sql.NumberType`; `textT` implements `sql.StringType`; `timestampT`
(a `DatetimeType`) and `jsonT` match neither interface. -/
inductive ColType where
  | int64T | uint64T | float64T | booleanT
  | textT
  | timestampT
  | jsonT
deriving DecidableEq, Repr

/-- The `case mysql.NumberType` interface match. -/
def ColType.isNumber : ColType → Bool
  | .int64T | .uint64T | .float64T | .booleanT => true
  | _ => false

/-- The `case mysql.StringType` interface match. -/
def ColType.isString : ColType → Bool
  | .textT => true
  | _ => false

/-- The go-mysql-server `sql.Column`, with the fields `writeDataframeToDb`
sets: name, type, nullable, source table. -/
structure Column where
  name : String
  ctype : ColType
  nullable : Bool
  source : String
deriving DecidableEq, Repr

/-- A materialized in-memory table: its declared schema and its rows. -/
structure Table where
  schema : List Column
  rowsData : List (List GoValue)
deriving DecidableEq, Repr

/-- The type `memory.Database`: the relational store held by the `DB` handle. Tables
are keyed by name (`AddTable` replaces any table already under that name). -/
structure Store where
  dbName : String
  tables : List (String × Table)
deriving DecidableEq, Repr

/-- Keep only entries not keyed by `n`. -/
def eraseKey : List (String × Table) → String → List (String × Table)
  | [], _ => []
  | (m, t) :: rest, n => if m = n then eraseKey rest n else (m, t) :: eraseKey rest n

/-- The method `memory.Database.AddTable`: map assignment, replacing any table already
registered under the same name. -/
def addTable (db : Store) (n : String) (t : Table) : Store :=
  { db with tables := eraseKey db.tables n ++ [(n, t)] }

/-- Look an entry up by key. -/
def lookupEntries : List (String × Table) → String → Option Table
  | [], _ => none
  | (m, t) :: rest, n => if m = n then some t else lookupEntries rest n

/-- Look a table up by name in the store. -/
def lookupTable (db : Store) (n : String) : Option Table :=
  lookupEntries db.tables n

/-- The constructor `NewInMemoryDB`: a handle holding one `memory.NewDatabase(dbName)` with
`dbName = "mydb"`, created once and kept on the handle. -/
def NewInMemoryDB : Store := ⟨"mydb", []⟩

/-- The error outcomes of the bridge. `materialization` covers
`writeDataframeToDb` failures, `execution` covers `engine.Query` failures,
`unsupportedColumn` and `unsupportedValue` are the two formatted errors of
`convertToDataFrame`, and `appendPanic` is the SDK panic raised when
`Field.Append` receives a value of the wrong Go type. -/
inductive EvalError where
  | materialization (msg : String)
  | execution (msg : String)
  | unsupportedColumn (colName : String)
  | unsupportedValue (colName : String)
  | appendPanic (colIdx : Nat)
deriving DecidableEq, Repr

/-- The function `convertDataType` of db.go: maps a field type tag to a go-mysql-server
column type; the `default` branch returns `types.JSON`. -/
def convertDataType : FieldType → ColType
  | .int8 | .int16 | .int32 | .int64 => .int64T
  | .uint8 | .uint16 | .uint32 | .uint64 => .uint64T
  | .float32 | .float64 => .float64T
  | .string => .textT
  | .bool => .booleanT
  | .time => .timestampT
  | _ => .jsonT

/-- The schema `writeDataframeToDb` builds: one column per frame field, in
field order, `Nullable: true`, `Source: tableName`. -/
def frameSchema (tableName : String) (fr : Frame) : List Column :=
  fr.fields.map (fun fld => ⟨fld.name, convertDataType fld.ftype, true, tableName⟩)

/-- The rows `writeDataframeToDb` inserts: for each `i < frame.Rows()`, the
row `[field.At(i) | field <- frame.Fields]`, in original order. -/
def frameRows (fr : Frame) : List (List GoValue) :=
  (List.range fr.rows).map (fun i => fr.fields.map (fun fld => fld.at i))

/-- The table built from a frame by `writeDataframeToDb`. Modelled from the
spec for the external `memory.Table.Insert`: rows are inserted in the frame's
original row order (spec section 4.2); insert-side value conversion failures of
the external engine are not modelled, as no claim depends on them. -/
def mkTable (tableName : String) (fr : Frame) : Table :=
  ⟨frameSchema tableName fr, frameRows fr⟩

/-- The method `writeDataframeToDb(ctx, tableName, frame)`: nil frame is an error;
otherwise the table is built from the frame's fields via `convertDataType`
and registered under `tableName` with `AddTable`. Returns the updated store
and the error, mirroring the in-place mutation of `db.inMemoryDb`. -/
def writeDataframeToDb (db : Store) (tableName : String) (frame : Option Frame) :
    Store × Option EvalError :=
  match frame with
  | none => (db, some (.materialization "input frame is nil"))
  | some fr => (addTable db tableName (mkTable tableName fr), none)

/-- The materialization loop of `QueryFramesInto`: every input frame is
written under the same `tableName` (the first argument of `QueryFramesInto`),
stopping at the first error. -/
def writeAll (db : Store) (tableName : String) : List (Option Frame) → Store × Option EvalError
  | [] => (db, none)
  | fr :: rest =>
    match writeDataframeToDb db tableName fr with
    | (db', none) => writeAll db' tableName rest
    | (db', some e) => (db', some e)

/-- The result of `engine.Query`: the schema and the fully drained row
iterator (the iterator is finite and forward-only; its rows are listed in the
order the engine yields them). -/
structure QueryResult where
  schema : List Column
  rowsData : List (List GoValue)
deriving DecidableEq, Repr

/-- The field-creation switch of `convertToDataFrame`: a `NumberType` column
becomes a field over `[]int64{}`, a `StringType` column a field over
`[]string{}`; any other column type hits the `default` branch and errors. -/
def fieldForColumn (c : Column) : Option Field :=
  if c.ctype.isNumber then some ⟨c.name, .int64, []⟩
  else if c.ctype.isString then some ⟨c.name, .string, []⟩
  else none

/-- The first loop of `convertToDataFrame`: fields are appended to `f.Fields`
one by one; an unsupported column type aborts, leaving the fields appended so
far in place (`f` is mutated through a pointer). -/
def buildFields : List Column → Frame → Frame × Option EvalError
  | [], f => (f, none)
  | c :: cs, f =>
    match fieldForColumn c with
    | none => (f, some (.unsupportedColumn c.name))
    | some fld => buildFields cs { f with fields := f.fields ++ [fld] }

/-- The value type switch of `convertToDataFrame`'s row loop: `int8` is
widened to `int64`; `int64`, `float64`, `string` and `bool` pass through; any
other runtime kind (including a nil interface value) hits the `default`
branch and errors. -/
def decodeVal : GoValue → Option GoValue
  | .gInt8 i => some (.gInt64 i)
  | .gInt64 i => some (.gInt64 i)
  | .gFloat b => some (.gFloat b)
  | .gString s => some (.gString s)
  | .gBool b => some (.gBool b)
  | _ => none

/-- The expression `schema[i].Name`, used in the unsupported-value error message. -/
def colNameAt (schema : List Column) (i : Nat) : String :=
  ((schema.get? i).map (·.name)).getD ""

/-- The call `f.Fields[i].Append(v)`: appends `v` to the i-th field if its element
type accepts `v`'s runtime type; otherwise the SDK panics (`none`). -/
def appendAt (f : Frame) (i : Nat) (v : GoValue) : Option Frame :=
  match f.fields.get? i with
  | none => none
  | some fld =>
    if elemAccepts fld.ftype v then
      some { f with fields := f.fields.set i { fld with values := fld.values ++ [v] } }
    else none

/-- The inner `for i, val := range row` loop: each value is decoded by the
type switch and appended to its field; a decode failure returns the
unsupported-value error, a type-mismatched append panics. Values of the same
row already appended stay appended. -/
def appendRowVals (schema : List Column) : Frame → Nat → List GoValue → Frame × Option EvalError
  | f, _, [] => (f, none)
  | f, i, v :: vs =>
    match decodeVal v with
    | none => (f, some (.unsupportedValue (colNameAt schema i)))
    | some v' =>
      match appendAt f i v' with
      | none => (f, some (.appendPanic i))
      | some f' => appendRowVals schema f' (i + 1) vs

/-- The outer row loop of `convertToDataFrame`, consuming the drained
iterator row by row until EOF or the first failure. -/
def appendRows (schema : List Column) : List (List GoValue) → Frame → Frame × Option EvalError
  | [], f => (f, none)
  | r :: rs, f =>
    match appendRowVals schema f 0 r with
    | (f', none) => appendRows schema rs f'
    | (f', some e) => (f', some e)

/-- The function `convertToDataFrame(iter, schema, f)`: first builds `f.Fields` from the
schema, then appends decoded row values. The frame component of the result is
the state of the caller's frame when the function returns (it is mutated in
place through the pointer `f`, also on the error paths). -/
def convertToDataFrame (schema : List Column) (rows : List (List GoValue)) (f : Frame) :
    Frame × Option EvalError :=
  match buildFields schema f with
  | (f', some e) => (f', some e)
  | (f', none) => appendRows schema rows f'

/-- The method `QueryFramesInto(tableName, query, frames, f)` of db.go, the bridge's
`Evaluate`. The external engine is a parameter: given the store contents and
the query text it yields a `QueryResult` or an error (engine.Query of
go-mysql-server is deterministic in those inputs for the SELECT statements the
claims concern). Steps, in source order: `f.Name = tableName`; write every
input frame to the store under `tableName`; run the query; decode the result
into `f`. Returns the store the handle keeps, the caller-visible state of
`f`, and the error. -/
def QueryFramesInto (engine : Store → String → Except String QueryResult)
    (db : Store) (tableName query : String) (frames : List (Option Frame)) (f : Frame) :
    Store × Frame × Option EvalError :=
  match writeAll db tableName frames with
  | (db', some e) => (db', { f with name := tableName }, some e)
  | (db', none) =>
    match engine db' query with
    | .error msg => (db', { f with name := tableName }, some (.execution msg))
    | .ok qr =>
      match convertToDataFrame qr.schema qr.rowsData { f with name := tableName } with
      | (f', oe) => (db', f', oe)

/-! ### Modelled engine behaviors

The relational engine is the external dependency go-mysql-server; the spec
specifies it only at its interface boundary (sections 4.3 and 6: a
MySQL-compatible grammar, missing-table references surface as errors). The
concrete engines below model the spec's stated behavior for the specific
queries the claims use. -/

/-- Modelled from the spec: the engine's behavior, per sections 4.3 and 6,
for the query `SELECT * FROM t;` — it returns the declared schema and the
stored rows of table `t` in insertion order, or a missing-table execution
error when no table named `t` exists in the store. -/
def specSelectStarEngine (t : String) : Store → String → Except String QueryResult :=
  fun db _query =>
    match lookupTable db t with
    | some tbl => .ok ⟨tbl.schema, tbl.rowsData⟩
    | none => .error ("table not found: " ++ t)

/-- Modelled from the spec: the engine's behavior for
`SELECT * FROM t LIMIT 1;` (spec section 8, Scenario C) — the declared schema
and the first stored row of table `t`, or a missing-table execution error. -/
def specSelectStarLimit1Engine (t : String) : Store → String → Except String QueryResult :=
  fun db _query =>
    match lookupTable db t with
    | some tbl => .ok ⟨tbl.schema, tbl.rowsData.take 1⟩
    | none => .error ("table not found: " ++ t)

/-- Modelled from the spec: the engine's result for the literal query
`SELECT '1' AS n;` (spec section 8, Scenario A; MySQL gives a string literal
a `StringType` column) — one text column `n`, one row `["1"]`, independent of
the store. -/
def specLiteralStringEngine : Store → String → Except String QueryResult :=
  fun _db _query => .ok ⟨[⟨"n", .textT, true, ""⟩], [[.gString "1"]]⟩

/-- Modelled from the spec: an engine result whose row stream contains a
`Null` runtime value (spec section 3 lists `Null` among the runtime kinds the
engine can produce) after one decodable string value: one text column `cn`,
a row holding the string `s`, then a row holding `NULL`. -/
def specNullAfterValueEngine (cn s : String) : Store → String → Except String QueryResult :=
  fun _db _query => .ok ⟨[⟨cn, .textT, true, ""⟩], [[.gString s], [.gNull]]⟩

/-- Concrete input frame of the repository's own test `TestQueryFramesInto`
(third case): a frame named `inputFrameRefId` with one string field. -/
def inputFrameGarfana : Frame :=
  ⟨"inputFrameRefId",
   [⟨"OSS Projects with Typos", .string, [.gString "Garfana", .gString "Pormetheus"]⟩]⟩

/-- A frame with a single Time column, for the round-trip property. -/
def timeFrame : Frame := ⟨"t", [⟨"ts", .time, [.gTime 0]⟩]⟩

/-- A frame with a single string column, for the store-reuse property. -/
def labelFrame : Frame := ⟨"a", [⟨"lbl", .string, [.gString "v"]⟩]⟩

/-- A fresh, zero-valued output frame (the `var frame data.Frame` of the
repository's test). -/
def emptyFrame : Frame := ⟨"", []⟩

/-- The last table the materialization loop registers: the table of the last
frame preceding the first nil frame, if any frame is written at all. -/
def lastWritten (tableName : String) : List (Option Frame) → Option Table
  | [] => none
  | none :: _ => none
  | some fr :: rest =>
    match lastWritten tableName rest with
    | some t => some t
    | none => some (mkTable tableName fr)

/-- The error outcome of the materialization loop, a function of the frame
list alone. -/
def writeErr : List (Option Frame) → Option EvalError
  | [] => none
  | none :: _ => some (.materialization "input frame is nil")
  | some _ :: rest => writeErr rest

/-- Register an optional table under a name. -/
def mergeTable (db : Store) (tableName : String) : Option Table → Store
  | none => db
  | some t => addTable db tableName t

/-! ### Helper lemmas -/

/-- `buildFields` never changes the frame's name. -/
theorem buildFields_name (cs : List Column) (f : Frame) :
    (buildFields cs f).1.name = f.name := by
  induction cs generalizing f with
  | nil => rfl
  | cons c cs ih =>
    unfold buildFields
    cases h : fieldForColumn c with
    | none => rfl
    | some fld => simpa using ih { f with fields := f.fields ++ [fld] }

/-- `appendAt` never changes the frame's name. -/
theorem appendAt_name (f : Frame) (i : Nat) (v : GoValue) (f' : Frame)
    (h : appendAt f i v = some f') : f'.name = f.name := by
  unfold appendAt at h
  cases hg : f.fields.get? i with
  | none => rw [hg] at h; exact absurd h (by simp)
  | some fld =>
    rw [hg] at h
    by_cases ha : elemAccepts fld.ftype v = true
    · simp [ha] at h; rw [← h]
    · simp [ha] at h

/-- `appendRowVals` never changes the frame's name. -/
theorem appendRowVals_name (schema : List Column) (f : Frame) (i : Nat) (vs : List GoValue) :
    (appendRowVals schema f i vs).1.name = f.name := by
  induction vs generalizing f i with
  | nil => rfl
  | cons v vs ih =>
    unfold appendRowVals
    cases hd : decodeVal v with
    | none => rfl
    | some v' =>
      simp only []
      cases ha : appendAt f i v' with
      | none => rfl
      | some f' =>
        simp only []
        exact (ih f' (i + 1)).trans (appendAt_name f i v' f' ha)

/-- `appendRows` never changes the frame's name. -/
theorem appendRows_name (schema : List Column) (rs : List (List GoValue)) (f : Frame) :
    (appendRows schema rs f).1.name = f.name := by
  induction rs generalizing f with
  | nil => rfl
  | cons r rs ih =>
    unfold appendRows
    cases h : appendRowVals schema f 0 r with
    | mk f' oe =>
      cases oe with
      | none =>
        simp only []
        have h1 : f'.name = f.name := by
          have := appendRowVals_name schema f 0 r
          rw [h] at this; exact this
        exact (ih f').trans h1
      | some e =>
        simp only []
        have := appendRowVals_name schema f 0 r
        rw [h] at this; exact this

/-- `convertToDataFrame` never changes the frame's name. -/
theorem convertToDataFrame_name (schema : List Column) (rows : List (List GoValue)) (f : Frame) :
    (convertToDataFrame schema rows f).1.name = f.name := by
  unfold convertToDataFrame
  cases h : buildFields schema f with
  | mk f' oe =>
    have h1 : f'.name = f.name := by
      have := buildFields_name schema f
      rw [h] at this; exact this
    cases oe with
    | none => simpa using (appendRows_name schema rows f').trans h1
    | some e => simpa using h1

/-- Erasing a key twice is the same as erasing it once. -/
theorem eraseKey_idem (l : List (String × Table)) (n : String) :
    eraseKey (eraseKey l n) n = eraseKey l n := by
  induction l with
  | nil => rfl
  | cons a l ih =>
    obtain ⟨m, t⟩ := a
    by_cases h : m = n
    · simp [eraseKey, h, ih]
    · simp [eraseKey, h, ih]

/-- Erasing a key distributes over append. -/
theorem eraseKey_append (l₁ l₂ : List (String × Table)) (n : String) :
    eraseKey (l₁ ++ l₂) n = eraseKey l₁ n ++ eraseKey l₂ n := by
  induction l₁ with
  | nil => rfl
  | cons a l ih =>
    obtain ⟨m, t⟩ := a
    by_cases h : m = n
    · simp [eraseKey, h, ih]
    · simp [eraseKey, h, ih]

/-- Registering a table twice under the same name keeps only the second. -/
theorem addTable_absorb (db : Store) (n : String) (t t' : Table) :
    addTable (addTable db n t) n t' = addTable db n t' := by
  unfold addTable
  simp [eraseKey_append, eraseKey_idem, eraseKey]

/-- Registering an optional table twice keeps only the second registration. -/
theorem mergeTable_absorb (db : Store) (tn : String) (o : Option Table) :
    mergeTable (mergeTable db tn o) tn o = mergeTable db tn o := by
  cases o with
  | none => rfl
  | some t => exact addTable_absorb db tn t t

/-- The materialization loop of `QueryFramesInto` is determined by the frame
list: it registers (at most) the table of the last written frame under the
single name `tableName`, and its error outcome is a function of the frames
alone. -/
theorem writeAll_eq (tableName : String) (frames : List (Option Frame)) :
    ∀ db : Store,
      writeAll db tableName frames
        = (mergeTable db tableName (lastWritten tableName frames), writeErr frames) := by
  induction frames with
  | nil => intro db; rfl
  | cons ofr rest ih =>
    intro db
    cases ofr with
    | none => rfl
    | some fr =>
      show writeAll (addTable db tableName (mkTable tableName fr)) tableName rest = _
      rw [ih]
      cases h : lastWritten tableName rest with
      | none => simp [lastWritten, h, mergeTable, writeErr]
      | some t => simp [lastWritten, h, mergeTable, writeErr, addTable_absorb]

/-- Lookup of a key other than `n` is unaffected by erasing `n`. -/
theorem lookupEntries_eraseKey (l : List (String × Table)) (n k : String) (h : k ≠ n) :
    lookupEntries (eraseKey l n) k = lookupEntries l k := by
  induction l with
  | nil => rfl
  | cons a l ih =>
    obtain ⟨m, t⟩ := a
    by_cases hn : m = n
    · have hnk : ¬(n = k) := fun e => h e.symm
      have hmk : ¬(m = k) := by rw [hn]; exact hnk
      simp [eraseKey, lookupEntries, hn, hmk, hnk, ih]
    · by_cases hk : m = k
      · have hkn : ¬(k = n) := h
        simp [eraseKey, lookupEntries, hn, hk, hkn]
      · simp [eraseKey, lookupEntries, hn, hk, ih]

/-- Appending an entry keyed by `n` does not affect lookups of `k ≠ n`. -/
theorem lookupEntries_append_single_ne (l : List (String × Table)) (n k : String) (t : Table)
    (h : k ≠ n) :
    lookupEntries (l ++ [(n, t)]) k = lookupEntries l k := by
  induction l with
  | nil =>
    have hk : ¬(n = k) := fun e => h e.symm
    simp [lookupEntries, hk]
  | cons a l ih =>
    obtain ⟨m, t0⟩ := a
    by_cases hk : m = k
    · simp [lookupEntries, hk]
    · simp [lookupEntries, hk, ih]

/-- Registering a table under `n` does not affect lookups of `k ≠ n`. -/
theorem lookupTable_addTable_ne (db : Store) (n k : String) (t : Table) (h : k ≠ n) :
    lookupTable (addTable db n t) k = lookupTable db k := by
  unfold lookupTable addTable
  rw [lookupEntries_append_single_ne _ _ _ _ h, lookupEntries_eraseKey _ _ _ h]

/-- The materialization loop only touches the table named `tableName`. -/
theorem writeAll_lookup_ne (tn k : String) (frames : List (Option Frame)) (db : Store)
    (h : k ≠ tn) :
    lookupTable (writeAll db tn frames).1 k = lookupTable db k := by
  rw [writeAll_eq]
  cases lastWritten tn frames with
  | none => rfl
  | some t => exact lookupTable_addTable_ne db tn k t h

/-- The store `QueryFramesInto` leaves on the handle is exactly the store
produced by the materialization loop, on every path (success or failure). -/
theorem QueryFramesInto_store (engine : Store → String → Except String QueryResult)
    (db : Store) (tn q : String) (frames : List (Option Frame)) (f : Frame) :
    (QueryFramesInto engine db tn q frames f).1 = (writeAll db tn frames).1 := by
  unfold QueryFramesInto
  split
  next db' e heq => rw [heq]
  next db' heq =>
    split
    next msg he => rw [heq]
    next qr he =>
      split
      next f' oe hc => rw [heq]

/-! ### Claim theorems -/

/-- C1: on the repository's own test input (third case of
`TestQueryFramesInto`: output name `sqlExpressionRefId`, query
`SELECT * FROM inputFrameRefId LIMIT 1;`, one input frame named
`inputFrameRefId`), `QueryFramesInto` registers the table under the OUTPUT
name, not the frame's declared name: the store holds a table
`sqlExpressionRefId` and none named `inputFrameRefId`, so the query referring
to the frame's name fails with a missing-table execution error — while the
test (and the claim) expect it to succeed. -/
theorem C1_table_named_after_output_not_frame :
    QueryFramesInto (specSelectStarLimit1Engine "inputFrameRefId") NewInMemoryDB
        "sqlExpressionRefId" "SELECT * FROM inputFrameRefId LIMIT 1;"
        [some inputFrameGarfana] emptyFrame
      = (⟨"mydb", [("sqlExpressionRefId", mkTable "sqlExpressionRefId" inputFrameGarfana)]⟩,
         ⟨"sqlExpressionRefId", []⟩,
         some (.execution ("table not found: " ++ "inputFrameRefId"))) ∧
    lookupTable ⟨"mydb", [("sqlExpressionRefId", mkTable "sqlExpressionRefId" inputFrameGarfana)]⟩
        "inputFrameRefId" = none := by
  exact ⟨rfl, rfl⟩

/-- C2 counterexample: a frame with a field whose tag (`enum`) is outside the
supported enumeration materializes WITHOUT error: `convertDataType` maps the
tag to the JSON column type and the table is defined, refuting the claimed
`UnsupportedType` failure at table-definition time. -/
theorem C2_counterexample :
    writeDataframeToDb NewInMemoryDB "t" (some ⟨"fr", [⟨"f1", FieldType.enum, []⟩]⟩)
      = (⟨"mydb", [("t", ⟨[⟨"f1", ColType.jsonT, true, "t"⟩], []⟩)]⟩, none) := by
  exact rfl

/-- C2 (amended): for every field type tag outside the supported enumeration,
`convertDataType` silently maps the tag to the JSON column type; the table
schema carries a JSON column for that field and table definition succeeds
with no error. -/
theorem C2_unsupported_tag_maps_to_json (ft : FieldType) (db : Store)
    (tn frName fname : String) (vals : List GoValue) (h : ft.isSupported = false) :
    convertDataType ft = ColType.jsonT ∧
    frameSchema tn ⟨frName, [⟨fname, ft, vals⟩]⟩ = [⟨fname, ColType.jsonT, true, tn⟩] ∧
    (writeDataframeToDb db tn (some ⟨frName, [⟨fname, ft, vals⟩]⟩)).2 = none := by
  cases ft <;>
    first
      | exact absurd h (by decide)
      | exact ⟨rfl, rfl, rfl⟩

/-- Witness for C2 (amended) at the concrete tag `json`. -/
theorem C2_unsupported_tag_maps_to_json_witness :
    FieldType.isSupported .json = false ∧
    (convertDataType .json = ColType.jsonT ∧
     frameSchema "t" ⟨"fr", [⟨"f1", FieldType.json, []⟩]⟩ = [⟨"f1", ColType.jsonT, true, "t"⟩] ∧
     (writeDataframeToDb NewInMemoryDB "t" (some ⟨"fr", [⟨"f1", FieldType.json, []⟩]⟩)).2 = none) :=
  ⟨by decide, C2_unsupported_tag_maps_to_json .json NewInMemoryDB "t" "fr" "f1" [] (by decide)⟩

/-- C3: the round trip fails for the supported type Time. A single-column
Time frame materializes to a Timestamp column (as `convertDataType`
prescribes), but `SELECT * FROM t` then fails during result decoding: the
Timestamp column is neither a `NumberType` nor a `StringType`, so field
creation hits the default branch and the call errors instead of returning an
identical frame. -/
theorem C3_time_roundtrip_fails :
    QueryFramesInto (specSelectStarEngine "t") NewInMemoryDB "t" "SELECT * FROM t;"
        [some timeFrame] emptyFrame
      = (⟨"mydb", [("t", mkTable "t" timeFrame)]⟩, ⟨"t", []⟩,
         some (.unsupportedColumn "ts")) := by
  exact rfl

/-- C4 counterexample: on a decode failure (a Null value in the second row),
`QueryFramesInto` returns the decode error AND the caller-visible output
frame still carries the field and the value appended before the failure —
refuting the claim that the output frame carries none of them. -/
theorem C4_counterexample :
    QueryFramesInto (specNullAfterValueEngine "a" "x") NewInMemoryDB "out"
        "SELECT a FROM u;" [] emptyFrame
      = (NewInMemoryDB, ⟨"out", [⟨"a", FieldType.string, [.gString "x"]⟩]⟩,
         some (.unsupportedValue "a")) := by
  exact rfl

/-- C4 (amended): a decode failure aborts the call with the decode error, but
the caller-supplied output frame is mutated in place and retains the fields
and values appended before the failure; the partially-built frame stays
visible to the caller. -/
theorem C4_decode_failure_leaves_visible_state (db : Store) (tn q cn s : String) :
    QueryFramesInto (specNullAfterValueEngine cn s) db tn q [] emptyFrame
      = (db, ⟨tn, [⟨cn, FieldType.string, [.gString s]⟩]⟩,
         some (.unsupportedValue cn)) := by
  exact rfl

/-- C5 counterexample: two sequential calls on the same handle share the
store. After a first call materializes a frame under name `a`, the table is
still registered on the handle, and a second call with NO input frames can
query it and read the first call's data — refuting per-call ephemerality. -/
theorem C5_counterexample :
    (QueryFramesInto (specSelectStarEngine "a") NewInMemoryDB "a" "SELECT * FROM a;"
        [some labelFrame] emptyFrame).1
      = ⟨"mydb", [("a", mkTable "a" labelFrame)]⟩ ∧
    QueryFramesInto (specSelectStarEngine "a") ⟨"mydb", [("a", mkTable "a" labelFrame)]⟩
        "out2" "SELECT * FROM a;" [] emptyFrame
      = (⟨"mydb", [("a", mkTable "a" labelFrame)]⟩,
         ⟨"out2", [⟨"lbl", FieldType.string, [.gString "v"]⟩]⟩, none) := by
  exact ⟨rfl, rfl⟩

/-- C5 (amended): the store lives on the handle and is reused across calls:
a call only (re)writes the single table named by its own output-name
argument, and every other table registered on the handle survives the call
unchanged, whatever the engine, query, frames and prior state. -/
theorem C5_store_persists_across_calls (engine : Store → String → Except String QueryResult)
    (db : Store) (tn q : String) (frames : List (Option Frame)) (f : Frame) (k : String)
    (h : k ≠ tn) :
    lookupTable (QueryFramesInto engine db tn q frames f).1 k = lookupTable db k := by
  rw [QueryFramesInto_store]
  exact writeAll_lookup_ne tn k frames db h

/-- Witness for C5 (amended) at concrete inputs. -/
theorem C5_store_persists_across_calls_witness :
    "a" ≠ "out2" ∧
    lookupTable (QueryFramesInto (specSelectStarEngine "a")
        ⟨"mydb", [("a", mkTable "a" labelFrame)]⟩ "out2" "SELECT * FROM a;" [] emptyFrame).1 "a"
      = lookupTable ⟨"mydb", [("a", mkTable "a" labelFrame)]⟩ "a" :=
  ⟨by decide,
   C5_store_persists_across_calls (specSelectStarEngine "a")
     ⟨"mydb", [("a", mkTable "a" labelFrame)]⟩ "out2" "SELECT * FROM a;" [] emptyFrame "a"
     (by decide)⟩

/-- C6 counterexample: a Null row value does NOT become an absent entry: the
value type switch has no nil case, so the row loop hits the default branch
and the call fails with an unsupported-value decode error. -/
theorem C6_counterexample :
    decodeVal GoValue.gNull = none ∧
    convertToDataFrame [⟨"n", ColType.textT, true, ""⟩] [[GoValue.gNull]] ⟨"out", []⟩
      = (⟨"out", [⟨"n", FieldType.string, []⟩]⟩, some (.unsupportedValue "n")) := by
  exact ⟨rfl, rfl⟩

/-- C6 (amended): for every result column type that passes field creation
(number or string), a Null row value makes the decode fail with the
unsupported-value error naming that column; no absent entry is produced. -/
theorem C6_null_value_errors (c : Column) (nm : String)
    (h : (c.ctype.isNumber || c.ctype.isString) = true) :
    (convertToDataFrame [c] [[GoValue.gNull]] ⟨nm, []⟩).2
      = some (.unsupportedValue c.name) := by
  obtain ⟨cn, ct, nb, src⟩ := c
  cases ct
  case timestampT => simp [ColType.isNumber, ColType.isString] at h
  case jsonT => simp [ColType.isNumber, ColType.isString] at h
  all_goals rfl

/-- Witness for C6 (amended) at a concrete text column. -/
theorem C6_null_value_errors_witness :
    ((ColType.textT.isNumber || ColType.textT.isString) = true) ∧
    (convertToDataFrame [⟨"n", ColType.textT, true, ""⟩] [[GoValue.gNull]] ⟨"out", []⟩).2
      = some (EvalError.unsupportedValue "n") :=
  ⟨by decide, C6_null_value_errors ⟨"n", ColType.textT, true, ""⟩ "out" (by decide)⟩

/-- C7: evaluating `SELECT '1' AS n;` with no input frames succeeds and
returns an output frame with exactly one string field named `n` holding
`["1"]` (the engine result for the literal query is modelled from the spec in
`specLiteralStringEngine`). -/
theorem C7_literal_select :
    QueryFramesInto specLiteralStringEngine NewInMemoryDB "sqlExpressionRefId"
        "SELECT '1' AS n;" [] emptyFrame
      = (NewInMemoryDB,
         ⟨"sqlExpressionRefId", [⟨"n", FieldType.string, [.gString "1"]⟩]⟩, none) := by
  exact rfl

/-- C8: `QueryFramesInto` is idempotent: a second call with identical
arguments, starting from the store the first call left on the handle and
decoding into an equal fresh output frame, returns the identical
(store, output frame, error) triple, for every deterministic engine. -/
theorem C8_idempotent (engine : Store → String → Except String QueryResult)
    (db : Store) (tn q : String) (frames : List (Option Frame)) (f : Frame) :
    QueryFramesInto engine (QueryFramesInto engine db tn q frames f).1 tn q frames f
      = QueryFramesInto engine db tn q frames f := by
  have hs : (QueryFramesInto engine db tn q frames f).1
      = mergeTable db tn (lastWritten tn frames) := by
    rw [QueryFramesInto_store, writeAll_eq]
  rw [hs]
  simp only [QueryFramesInto, writeAll_eq, mergeTable_absorb]

/-- C9: a numeric (`NumberType`) result column of float kind is given an
output field whose element type is 64-bit integer, and appending the decoded
float64 row value into that field is NOT well-typed: the SDK append
type-asserts and panics, refuting the claim that it never aborts. -/
theorem C9_float_append_panics :
    convertToDataFrame [⟨"x", ColType.float64T, true, "src"⟩] [[GoValue.gFloat 42]] ⟨"out", []⟩
      = (⟨"out", [⟨"x", FieldType.int64, []⟩]⟩, some (.appendPanic 0)) := by
  exact rfl

/-- C10: on every call — also on every failing path (materialization error,
execution error, decode failure) — the output frame's declared name is set to
the caller-provided output name as the first step, so the caller-visible
frame carries that name even when the call returns an error. -/
theorem C10_name_always_set (engine : Store → String → Except String QueryResult)
    (db : Store) (tn q : String) (frames : List (Option Frame)) (f : Frame) :
    ((QueryFramesInto engine db tn q frames f).2.1).name = tn := by
  unfold QueryFramesInto
  split
  next db' e heq => rfl
  next db' heq =>
    split
    next msg he => rfl
    next qr he =>
      split
      next f' oe hc =>
        have := convertToDataFrame_name qr.schema qr.rowsData { f with name := tn }
        rw [hc] at this
        exact this

end GrafanaSql
